import Mathlib

/-!
A shallow embedding of the CakeDayBot repository (src/cakeday.py and
src/models.py) together with proofs about the embedded program.

Conventions of the embedding:
* instants are integer Unix timestamps (seconds); Python datetime rendering
  of an instant in a timezone is modelled by adding that zone's UTC offset
  (in seconds, DST included) at the instant and converting the resulting
  day number to a proleptic-Gregorian civil date;
* the sqlite store (models.py) is modelled on its success path as explicit
  state passing over in-memory tables, matching the single-writer
  assumption of the design;
* the external collaborators (Reddit client, Gemini client, sentiment
  scorer) are oracles passed in as function arguments; a Python exception
  raised by program code is an `Except.error`, and a `try/except` block is
  the corresponding handler.
-/

namespace CakeDayBot

/-! ## Calendar arithmetic (models Python datetime rendering) -/

/-- Proleptic-Gregorian civil date (year, month, day) of a day number counted
from 1970-01-01 (Howard Hinnant's civil-from-days, with floor division). -/
def civilFromDays (z0 : Int) : Int × Int × Int :=
  let z := z0 + 719468
  let era := Int.fdiv z 146097
  let doe := z - era * 146097
  let yoe := Int.fdiv (doe - Int.fdiv doe 1460 + Int.fdiv doe 36524 - Int.fdiv doe 146096) 365
  let y := yoe + era * 400
  let doy := doe - (365 * yoe + Int.fdiv yoe 4 - Int.fdiv yoe 100)
  let mp := Int.fdiv (5 * doy + 2) 153
  let d := doy - Int.fdiv (153 * mp + 2) 5 + 1
  let m := if mp < 10 then mp + 3 else mp - 9
  (if m ≤ 2 then y + 1 else y, m, d)

/-- (month, day) of an instant rendered in UTC: models
`datetime.fromtimestamp(ts, timezone.utc).month/.day` in src/cakeday.py. -/
def monthDayUtc (s : Int) : Int × Int :=
  let c := civilFromDays (Int.fdiv s 86400)
  (c.2.1, c.2.2)

/-- (month, day) of an instant rendered in a timezone whose UTC offset at that
instant is `off` seconds: models `datetime.now(pytz_timezone(...)).month/.day`. -/
def monthDayAtOffset (off s : Int) : Int × Int :=
  monthDayUtc (s + off)

/-! ## Wish store (models.py, WishedUsersManager over the wished_users table) -/

/-- A calendar date (year, month, day); the ISO-8601 strings stored by
models.py compare exactly like this triple under the lexicographic order. -/
abbrev CalDate := Int × Int × Int

/-- Lexicographic order on dates: equals the SQL string comparison
`wished_date < ?` on zero-padded ISO-8601 dates used by clear_expired. -/
def calLtB (a b : CalDate) : Bool :=
  decide (a.1 < b.1 ∨ (a.1 = b.1 ∧ (a.2.1 < b.2.1 ∨ (a.2.1 = b.2.1 ∧ a.2.2 < b.2.2))))

/-- The wished_users table: rows (username, wished_date), username unique. -/
structure WishStore where
  rows : List (String × CalDate)
  deriving DecidableEq

/-- The row for a username, if any: models
`SELECT wished_date FROM wished_users WHERE username = ?`. -/
def WishStore.lookup (s : WishStore) (u : String) : Option CalDate :=
  (s.rows.find? (fun r => r.1 == u)).map (fun r => r.2)

/-- `DELETE FROM wished_users WHERE username = ?`. -/
def WishStore.erase (s : WishStore) (u : String) : WishStore :=
  ⟨s.rows.filter (fun r => !(r.1 == u))⟩

/-- models.py mark_as_wished: `INSERT OR REPLACE INTO wished_users` with
today's date for the username. -/
def mark_as_wished (s : WishStore) (today : CalDate) (u : String) : WishStore :=
  ⟨(u, today) :: (s.erase u).rows⟩

/-- models.py has_been_wished (success path of the store): returns whether the
stored date is today, deleting the row as a side effect when it is stale. -/
def has_been_wished (s : WishStore) (today : CalDate) (u : String) : Bool × WishStore :=
  match s.lookup u with
  | none => (false, s)
  | some d => if d = today then (true, s) else (false, s.erase u)

/-- models.py clear_expired: `DELETE FROM wished_users WHERE wished_date < today`. -/
def clear_expired (s : WishStore) (today : CalDate) : WishStore :=
  ⟨s.rows.filter (fun r => !(calLtB r.2 today))⟩

/-! ## Cake-day predicate (src/cakeday.py, is_cake_day, lines 233-257) -/

/-- The environment of one is_cake_day call. `fetchCreated` is the outcome of
`reddit.redditor(username)` and the `created_utc` attribute probe:
`Except.error` models an exception raised while fetching (caught by the
surrounding try), `Except.ok none` a redditor without `created_utc`, and
`Except.ok (some ts)` a creation timestamp. `nowUtc` is the current instant;
`nowOffset` is the America/Toronto UTC offset (seconds) at that instant. -/
structure UserEnv where
  fetchCreated : Except Unit (Option Int)
  nowUtc : Int
  nowOffset : Int

/-- The age-and-anniversary test of is_cake_day: elapsed whole days
`(now_local - account_creation_time).days >= 365` and the month/day equality.
Note the source compares `account_creation_time.month/.day` — a UTC-rendered
datetime — against `now_local.month/.day` rendered in America/Toronto. -/
def cake_day_conditions (env : UserEnv) : Bool :=
  match env.fetchCreated with
  | .error _ => false
  | .ok none => false
  | .ok (some created) =>
    decide (365 ≤ Int.fdiv (env.nowUtc - created) 86400) &&
    decide (monthDayUtc created = monthDayAtOffset env.nowOffset env.nowUtc)

/-- src/cakeday.py is_cake_day: skip if already wished today, otherwise test
the creation anniversary and, on a match, persist the wish record before
returning true. A fetch fault (`Except.error`) is caught and yields false. -/
def is_cake_day (env : UserEnv) (s : WishStore) (today : CalDate) (u : String) :
    Bool × WishStore :=
  let hw := has_been_wished s today u
  if hw.1 then (false, hw.2)
  else if cake_day_conditions env then (true, mark_as_wished hw.2 today u)
  else (false, hw.2)

/-- The month/day comparison as the specification words it: both the creation
instant and now rendered in the same reference timezone (each at that zone's
offset for the respective instant). -/
def sameZoneMonthDayMatch (offAtCreation offAtNow created nowUtc : Int) : Prop :=
  monthDayAtOffset offAtCreation created = monthDayAtOffset offAtNow nowUtc

/-- Concrete environment for the C2 counterexample: account created
2020-03-05 01:00:00 UTC (epoch 1583370000; 2020-03-04 20:00 in Toronto, EST,
offset -18000), now 2026-03-05 17:00:00 UTC (epoch 1772730000; 2026-03-05
12:00 in Toronto, EST). -/
def c2env : UserEnv :=
  ⟨Except.ok (some 1583370000), 1772730000, -18000⟩

/-! ## Gemini model failover (src/cakeday.py, get_gemini_client, lines 104-160) -/

/-- Outcome of one `client.models.generate_content` call: a response with
text, or an exception whose `code` attribute is `code` (none when absent). -/
inductive GenResult where
  | ok (text : String)
  | err (code : Option Nat)
  deriving DecidableEq

/-- The retry/failover loop of get_gemini_client. `gen idx attempt` is the
outcome of the test call made with model index `idx` while the local
`attempt` counter holds `attempt`. Returns (selected model name or none,
final value of the global `current_gemini_model_index`). The loop always
terminates (every iteration either advances the model index, bounded by the
list length, or the attempt counter, bounded by maxRetries); `fuel` at least
`(models.length + 1) * (maxRetries + 1) + 1` is never exhausted, and the
fuel-out value coincides with the loop-exit value `(none, idx)`. -/
def gemLoop (gen : Nat → Nat → GenResult) (models : List String) (maxRetries : Nat) :
    Nat → Nat → Nat → Option String × Nat
  | 0, idx, _attempt => (none, idx)
  | fuel + 1, idx, attempt =>
    if attempt < maxRetries then
      if models.length ≤ idx then (none, idx)
      else
        match gen idx attempt with
        | .ok _t => (models[idx]?, idx)
        | .err code =>
          if code = some 401 then (none, idx)
          else if code = some 429 ∨ code = some 503 then
            gemLoop gen models maxRetries fuel (idx + 1) attempt
          else if attempt < maxRetries - 1 then
            gemLoop gen models maxRetries fuel idx (attempt + 1)
          else if idx + 1 < models.length then
            gemLoop gen models maxRetries fuel (idx + 1) 0
          else (none, idx + 1)
    else (none, idx)

/-- src/cakeday.py get_gemini_client with max_retries = `maxRetries`, starting
from the global model index `startIdx`. -/
def get_gemini_client (gen : Nat → Nat → GenResult) (models : List String)
    (maxRetries startIdx : Nat) : Option String × Nat :=
  gemLoop gen models maxRetries ((models.length + 1) * (maxRetries + 1) + 1) startIdx 0

/-- Variant implementing the claim's wording instead of the source: on a
429/503 the attempt counter is reset to 0 for the next model (the source's
`continue` keeps the counter). -/
def gemLoopReset (gen : Nat → Nat → GenResult) (models : List String) (maxRetries : Nat) :
    Nat → Nat → Nat → Option String × Nat
  | 0, idx, _attempt => (none, idx)
  | fuel + 1, idx, attempt =>
    if attempt < maxRetries then
      if models.length ≤ idx then (none, idx)
      else
        match gen idx attempt with
        | .ok _t => (models[idx]?, idx)
        | .err code =>
          if code = some 401 then (none, idx)
          else if code = some 429 ∨ code = some 503 then
            gemLoopReset gen models maxRetries fuel (idx + 1) 0
          else if attempt < maxRetries - 1 then
            gemLoopReset gen models maxRetries fuel idx (attempt + 1)
          else if idx + 1 < models.length then
            gemLoopReset gen models maxRetries fuel (idx + 1) 0
          else (none, idx + 1)
    else (none, idx)

/-- get_gemini_client under the claim's reset-on-switch reading. -/
def get_gemini_client_reset (gen : Nat → Nat → GenResult) (models : List String)
    (maxRetries startIdx : Nat) : Option String × Nat :=
  gemLoopReset gen models maxRetries ((models.length + 1) * (maxRetries + 1) + 1) startIdx 0

/-- Generation oracle of the C8 counterexample: model 0 fails with a generic
error on its first attempt and with HTTP 429 on its second; model 1 would
answer on a first attempt but keeps failing at later attempt counts. -/
def c8gen : Nat → Nat → GenResult := fun idx attempt =>
  if idx = 0 ∧ attempt = 0 then .err none
  else if idx = 0 ∧ attempt = 1 then .err (some 429)
  else if idx = 1 ∧ attempt = 0 then .ok "response of modelB"
  else .err none

/-! ## Message generation and posting (src/cakeday.py, lines 162-225, 291-321) -/

/-- The static fallback message used everywhere generation cannot be trusted. -/
def fallbackMessage : String :=
  "Happy Cake Day! 🎂"

/-- The signature appended to every posted comment (line 176). -/
def botSignature : String :=
  "\n\n*I am a bot sending some cheer in a world that needs more. Run by /u/LordTSG*"

/-- src/cakeday.py generate_cake_day_message: fallback when no client/model,
otherwise one real generation call (`genCall` keyed by model name); any error
or missing text yields the fallback. -/
def generate_cake_day_message (clientModel : Option String) (genCall : String → GenResult) :
    String :=
  match clientModel with
  | none => fallbackMessage
  | some m =>
    match genCall m with
    | .ok t => t
    | .err _ => fallbackMessage

/-- Outcome of one `target_obj.reply(comment_text)` attempt, by the handler
the source gives it. -/
inductive ReplyOutcome where
  | posted
  | forbiddenRatelimit
  | forbiddenOther
  | serverError
  | requestError
  | otherError
  deriving DecidableEq

/-- The retry loop of post_cake_day_comment. `remaining` is
`max_retries - attempt` (the while condition `attempt < max_retries` is
`remaining > 0`, and `attempt < max_retries - 1` is `remaining > 1`);
`reply n` is the outcome of the attempt made while `attempt = n`. Returns
(success, every text passed to `reply`, in order). -/
def post_comment_go (reply : Nat → ReplyOutcome) (text : String) :
    Nat → Nat → List String → Bool × List String
  | 0, _attempt, acc => (false, acc)
  | remaining + 1, attempt, acc =>
    let acc1 := acc ++ [text]
    match reply attempt with
    | .posted => (true, acc1)
    | .forbiddenRatelimit =>
      if 1 ≤ remaining then post_comment_go reply text remaining (attempt + 1) acc1
      else (false, acc1)
    | .forbiddenOther => (false, acc1)
    | .serverError =>
      if 1 ≤ remaining then post_comment_go reply text remaining (attempt + 1) acc1
      else (false, acc1)
    | .requestError =>
      if 1 ≤ remaining then post_comment_go reply text remaining (attempt + 1) acc1
      else (false, acc1)
    | .otherError => (false, acc1)

/-- src/cakeday.py post_cake_day_comment: builds
`comment_text = geminiMessage + signature` once and retries `reply` on it. -/
def post_cake_day_comment (reply : Nat → ReplyOutcome) (geminiMessage : String)
    (maxRetries : Nat) : Bool × List String :=
  post_comment_go reply (geminiMessage ++ botSignature) maxRetries 0 []

/-! ## Per-item pipeline (src/cakeday.py, process_item, lines 323-656) -/

/-- A Python exception class relevant to the embedding. -/
inductive PyErr where
  | zeroDivision
  | generic
  deriving DecidableEq

/-- One entry of the collected conversation context (text already truncated
to 500 characters by the collector). -/
structure SentEntry where
  text : String
  deriving DecidableEq

/-- Python `max(entries, key=abs compound)`: the first entry of maximal
absolute compound score. `polarity` is the (integer-scaled) compound score
of the external Vader analyzer. -/
def maxByAbs (polarity : String → Int) (e : SentEntry) (es : List SentEntry) : SentEntry :=
  es.foldl (fun best x =>
    if (polarity best.text).natAbs < (polarity x.text).natAbs then x else best) e

/-- The sentiment-summary block of process_item (lines 437-440), which runs
after (and outside) the try/except around context collection:
`average = sum(compounds) / len(entries)` raises ZeroDivisionError on an
empty context; on a non-empty context it computes the average and the most
extreme entry. -/
def sentiment_summary (polarity : String → Int) :
    List SentEntry → Except PyErr (Int × SentEntry)
  | [] => .error .zeroDivision
  | e :: es =>
    let total := (e :: es).foldl (fun a x => a + polarity x.text) 0
    .ok (Int.fdiv total (e :: es).length, maxByAbs polarity e es)

/-- src/cakeday.py process_item, with the parts the claims are about made
explicit. `isCake` is the value of `item.author and is_cake_day(...)` (the
predicate itself is `is_cake_day` above); `collected` is the conversation
context the try/except-guarded collector gathered (empty or partial when the
tree walk faulted); the prompt string itself is not modelled. On a cake day
the sentiment summary runs (unguarded: its error escapes process_item), then
the Gemini client selection, message generation and posting, none of which
can raise. Returns (cake day found, texts passed to reply, final global model
index). -/
def process_item (isCake : Bool) (polarity : String → Int) (collected : List SentEntry)
    (gen : Nat → Nat → GenResult) (models : List String) (startIdx : Nat)
    (genCall : String → GenResult) (reply : Nat → ReplyOutcome) :
    Except PyErr (Bool × List String × Nat) :=
  if isCake then
    match sentiment_summary polarity collected with
    | .error e => .error e
    | .ok _stats =>
      let sel := get_gemini_client gen models 3 startIdx
      let geminiMessage :=
        match sel.1 with
        | some m => generate_cake_day_message (some m) genCall
        | none => fallbackMessage
      let posted := post_cake_day_comment reply geminiMessage 3
      .ok (true, posted.2, sel.2)
  else .ok (false, [], startIdx)

/-- Item processor of the C6 scenario: item Q1 is authored by a cake-day user
whose context collection faulted at once (empty context); other items find no
cake day. -/
def c6procItem : String → Except PyErr Bool := fun i =>
  match process_item (i == "Q1") (fun _ => 0) [] (fun _ _ => GenResult.err none)
      ["modelA"] 0 (fun _ => GenResult.err none) (fun _ => ReplyOutcome.posted) with
  | .error e => .error e
  | .ok r => .ok r.1

/-! ## Subreddit scan driver (src/cakeday.py, process_subreddit, lines 658-698,
and the __main__ loop, lines 891-922) -/

/-- A top-level comment as the scan driver sees it. -/
structure RComment where
  id : String
  author : Option String
  deriving DecidableEq

/-- A post of the subreddit's new-feed as the scan driver sees it. -/
structure Post where
  id : String
  author : Option String
  comments : List RComment
  deriving DecidableEq

/-- `if last_post_checked and post.id == last_post_checked` (a NULL cursor is
falsy, so nothing matches it). -/
def cursorMatch (lastChecked : Option String) (pid : String) : Bool :=
  match lastChecked with
  | some l => pid == l
  | none => false

/-- The comment loop of process_subreddit: process_item on each comment with
a known author; an escaping error aborts the scan. Returns the processed item
ids accumulated so far. -/
def processComments (procItem : String → Except PyErr Bool) :
    List RComment → List String → Except PyErr (List String)
  | [], acc => .ok acc
  | c :: rest, acc =>
    if c.author.isSome then
      match procItem c.id with
      | .error e => .error e
      | .ok _ => processComments procItem rest (acc ++ [c.id])
    else processComments procItem rest acc

/-- `if not new_last_post_checked: new_last_post_checked = post.id`: the first
post seen becomes the new cursor, later posts leave it alone. -/
def newCursorUpd (newLast : Option String) (p : Post) : Option String :=
  match newLast with
  | none => some p.id
  | some x => some x

/-- The post loop of process_subreddit: remember the first post's id as the
new cursor, stop at the stored cursor, otherwise run the pipeline on the post
(when authored) and on its first 50 top-level comments. -/
def process_subreddit_go (procItem : String → Except PyErr Bool) (lastChecked : Option String) :
    List Post → Option String → List String → Except PyErr (List String × Option String)
  | [], newLast, acc => .ok (acc, newLast)
  | p :: rest, newLast, acc =>
    if cursorMatch lastChecked p.id then .ok (acc, newCursorUpd newLast p)
    else if p.author.isSome then
      match procItem p.id with
      | .error e => .error e
      | .ok _ =>
        match processComments procItem (p.comments.take 50) (acc ++ [p.id]) with
        | .error e => .error e
        | .ok acc2 => process_subreddit_go procItem lastChecked rest (newCursorUpd newLast p) acc2
    else
      match processComments procItem (p.comments.take 50) acc with
      | .error e => .error e
      | .ok acc2 => process_subreddit_go procItem lastChecked rest (newCursorUpd newLast p) acc2

/-- src/cakeday.py process_subreddit over the feed's newest 25 posts
(newest-first). Returns (ids of the items run through the pipeline, the id of
the first post checked — the value returned as new_last_post_checked, which
is NULL when the feed was empty). -/
def process_subreddit (procItem : String → Except PyErr Bool) (posts : List Post)
    (lastChecked : Option String) : Except PyErr (List String × Option String) :=
  process_subreddit_go procItem lastChecked (posts.take 25) none []

/-- One iteration of the __main__ loop for one subreddit: scan, then
`update_last_post_checked` stores the returned cursor unconditionally (NULL
included). Returns the stored cursor, or the escaping error. -/
def run_scan (procItem : String → Except PyErr Bool) (posts : List Post)
    (cursor : Option String) : Except PyErr (Option String) :=
  match process_subreddit procItem posts cursor with
  | .error e => .error e
  | .ok r => .ok r.2

/-- Consecutive runs over the same subreddit: each run's feed in order, the
cursor threaded through the store between runs. -/
def run_scans (procItem : String → Except PyErr Bool) :
    List (List Post) → Option String → Except PyErr (Option String)
  | [], cursor => .ok cursor
  | f :: fs, cursor =>
    match run_scan procItem f cursor with
    | .error e => .error e
    | .ok c1 => run_scans procItem fs c1

/-- An authored post with no comments, for concrete scan scenarios. -/
def mkPost (i a : String) : Post :=
  ⟨i, some a, []⟩

/-! ## Reputation cache (src/cakeday.py, get_bot_comment_score, lines 700-748;
the Database accessors it calls are not under src/ and are modelled from the
spec) -/

/-- A cached reputation row: total score, comment count, computation instant. -/
structure RepEntry where
  totalScore : Int
  commentCount : Int
  lastComputed : Int
  deriving DecidableEq

/-- The bot_performance table, keyed by subreddit name. -/
structure RepCache where
  entries : List (String × RepEntry)
  deriving DecidableEq

/-- The cached row for a subreddit, if any. -/
def RepCache.lookup (c : RepCache) (sub : String) : Option RepEntry :=
  (c.entries.find? (fun r => r.1 == sub)).map (fun r => r.2)

/-- Modelled from the spec: `Database.get_bot_performance(subreddit, ttl)` is
called at src/cakeday.py line 714 but its definition is not in src/; per the
spec the reputation cache is a read-through cache returning the cached
(totalScore, commentCount) when a row exists and is not older than the TTL,
and nothing when the row is absent or older than the TTL. -/
def get_bot_performance (c : RepCache) (now : Int) (sub : String) (ttl : Int) :
    Option (Int × Int) :=
  match c.lookup sub with
  | none => none
  | some e => if now - e.lastComputed ≤ ttl then some (e.totalScore, e.commentCount) else none

/-- Modelled from the spec: `Database.update_bot_performance` is called at
src/cakeday.py line 738 but its definition is not in src/; per the spec it
creates/overwrites the subreddit's cached row, stamped with the current
instant. -/
def update_bot_performance (c : RepCache) (now : Int) (sub : String) (t n : Int) : RepCache :=
  ⟨(sub, ⟨t, n, now⟩) :: c.entries.filter (fun r => !(r.1 == sub))⟩

/-- One of the bot's own recent comments as listed by
`bot_user.comments.new(limit=100)`. -/
structure BotComment where
  subredditName : String
  createdUtc : Int
  score : Int
  deriving DecidableEq

/-- Python `str.lower()`. -/
def lowerStr (s : String) : String :=
  s.map Char.toLower

/-- The filter of the recompute loop (lines 732-733): same subreddit
case-insensitively, and created after the cutoff instant. -/
def repRelevant (sub : String) (cutoff : Int) (cm : BotComment) : Bool :=
  lowerStr cm.subredditName == lowerStr sub && decide (cutoff < cm.createdUtc)

/-- src/cakeday.py get_bot_comment_score: return the cached tuple when fresh;
otherwise recompute by folding over the bot's recent comments, store the
result, and return it. The Bool records whether the recompute path ran.
`daysToCheck` and `ttl` carry the source defaults 30 and 900. -/
def get_bot_comment_score (cache : RepCache) (now : Int) (sub : String)
    (botComments : List BotComment) (daysToCheck ttl : Int) :
    (Int × Int) × RepCache × Bool :=
  match get_bot_performance cache now sub ttl with
  | some tn => (tn, cache, false)
  | none =>
    let cutoff := now - daysToCheck * 86400
    let tn := botComments.foldl
      (fun (acc : Int × Int) cm =>
        if repRelevant sub cutoff cm then (acc.1 + cm.score, acc.2 + 1) else acc)
      (0, 0)
    (tn, update_bot_performance cache now sub tn.1 tn.2, true)

/-! ## Helper lemmas about the wish store -/

/-- The record just written by mark_as_wished is found by a lookup. -/
theorem lookup_mark (s : WishStore) (today : CalDate) (u : String) :
    (mark_as_wished s today u).lookup u = some today := by
  unfold mark_as_wished WishStore.lookup
  rw [List.find?_cons_of_pos _ (by simp)]
  rfl

/-- After erasing a username, its lookup is empty. -/
theorem lookup_erase (s : WishStore) (u : String) : (s.erase u).lookup u = none := by
  unfold WishStore.erase WishStore.lookup
  rw [Option.map_eq_none', List.find?_eq_none]
  intro x hx
  have hq := (List.mem_filter.mp hx).2
  simpa using hq

/-- has_been_wished on a store holding today's record for the user. -/
theorem hbw_of_lookup (s : WishStore) (today : CalDate) (u : String)
    (h : s.lookup u = some today) : has_been_wished s today u = (true, s) := by
  unfold has_been_wished
  rw [h]
  simp

/-- When has_been_wished answers true, the store held today's record and was
left unchanged. -/
theorem hbw_true_elim (s : WishStore) (today : CalDate) (u : String)
    (h : (has_been_wished s today u).1 = true) :
    s.lookup u = some today ∧ (has_been_wished s today u).2 = s := by
  have h2 := h
  unfold has_been_wished at h2
  cases hl : s.lookup u with
  | none => rw [hl] at h2; simp at h2
  | some d =>
    rw [hl] at h2
    by_cases hd : d = today
    · subst hd
      refine ⟨rfl, ?_⟩
      unfold has_been_wished
      rw [hl]
      simp
    · simp [hd] at h2

/-- is_cake_day answers false whenever the anniversary conditions fail. -/
theorem ic_false_of_cond_false (env : UserEnv) (s : WishStore) (today : CalDate)
    (u : String) (h : cake_day_conditions env = false) :
    (is_cake_day env s today u).1 = false := by
  unfold is_cake_day
  by_cases h1 : (has_been_wished s today u).1 <;> simp [h1, h]

/-! ## Claim theorems: wish store and cake-day predicate -/

/-- C1: calling is_cake_day twice on the same calendar day yields true-then-false
or false-then-false, never true-then-true; when the first call answers true the
WishRecord is already persisted in the store state that call returns (before any
message is generated or posted), so a repeat call — even under a changed
environment — answers false. With an unchanged environment the second call
always answers false. -/
theorem c1_idempotent_wishing (env env2 : UserEnv) (s : WishStore) (today : CalDate)
    (u : String) :
    ((is_cake_day env s today u).1 = true →
      WishStore.lookup (is_cake_day env s today u).2 u = some today ∧
      (is_cake_day env2 (is_cake_day env s today u).2 today u).1 = false) ∧
    (is_cake_day env (is_cake_day env s today u).2 today u).1 = false := by
  by_cases hc : cake_day_conditions env
  · by_cases h1 : (has_been_wished s today u).1
    · have he := hbw_true_elim s today u h1
      have hr : is_cake_day env s today u = (false, (has_been_wished s today u).2) := by
        unfold is_cake_day
        simp [h1]
      rw [hr, he.2]
      have h2 := hbw_of_lookup s today u he.1
      constructor
      · intro hf; simp at hf
      · unfold is_cake_day
        simp [h2]
    · have hr : is_cake_day env s today u =
          (true, mark_as_wished (has_been_wished s today u).2 today u) := by
        unfold is_cake_day
        simp [h1, hc]
      rw [hr]
      have hm := lookup_mark (has_been_wished s today u).2 today u
      have h2 := hbw_of_lookup _ today u hm
      constructor
      · intro _
        refine ⟨hm, ?_⟩
        unfold is_cake_day
        simp [h2]
      · unfold is_cake_day
        simp [h2]
  · have hcf : cake_day_conditions env = false := by simpa using hc
    constructor
    · intro htrue
      rw [ic_false_of_cond_false env s today u hcf] at htrue
      simp at htrue
    · exact ic_false_of_cond_false env _ today u hcf

/-- C2 (amended): is_cake_day answers true exactly when the user is not already
recorded as wished today, the creation timestamp was fetched without fault,
the elapsed whole days between creation and now are at least 365, and the
creation instant's (month, day) rendered in UTC equals now's (month, day)
rendered in the reference timezone; in particular a fetch fault
(`Except.error`) yields false, never true. -/
theorem c2_cake_day_predicate (env : UserEnv) (s : WishStore) (today : CalDate)
    (u : String) :
    (is_cake_day env s today u).1 = true ↔
      ((has_been_wished s today u).1 = false ∧
       ∃ ts, env.fetchCreated = Except.ok (some ts) ∧
         365 ≤ Int.fdiv (env.nowUtc - ts) 86400 ∧
         monthDayUtc ts = monthDayAtOffset env.nowOffset env.nowUtc) := by
  rcases env with ⟨fc, nowUtc, nowOffset⟩
  unfold is_cake_day cake_day_conditions
  by_cases h1 : (has_been_wished s today u).1
  · simp [h1]
  · cases fc with
    | error e => simp [h1]
    | ok o =>
      cases o with
      | none => simp [h1]
      | some ts =>
        simp [h1, and_assoc]
        by_cases hA : 365 ≤ Int.fdiv (nowUtc - ts) 86400 ∧
            monthDayUtc ts = monthDayAtOffset nowOffset nowUtc
        · simp [hA]
        · simp [hA]

/-- C2 counterexample: for an account created 2020-03-05 01:00 UTC (which is
2020-03-04 in the America/Toronto reference zone, offset -18000) checked at
2026-03-05 17:00 UTC (2026-03-05 in Toronto), the code answers true although
the claim's same-zone month/day comparison fails — the source renders the
creation date in UTC, not in the reference zone. -/
theorem c2_counterexample :
    (is_cake_day c2env ⟨[]⟩ (2026, 3, 5) "bob").1 = true ∧
    ¬ sameZoneMonthDayMatch (-18000) (-18000) 1583370000 1772730000 := by
  constructor
  · decide
  · unfold sameZoneMonthDayMatch
    decide

/-- C7: a lookup for a username whose stored WishRecord date is not today
answers false and deletes the stale row as a side effect (the username's
lookup afterwards is empty), and clear_expired keeps exactly the rows whose
date is not before today — it deletes every row dated before today. -/
theorem c7_stale_wish_expiry (s : WishStore) (today : CalDate) (u : String)
    (d : CalDate) (h : s.lookup u = some d) (hne : d ≠ today) :
    has_been_wished s today u = (false, s.erase u) ∧
    (s.erase u).lookup u = none ∧
    ∀ r : String × CalDate,
      r ∈ (clear_expired s today).rows ↔ r ∈ s.rows ∧ calLtB r.2 today = false := by
  refine ⟨?_, lookup_erase s u, ?_⟩
  · unfold has_been_wished
    rw [h]
    simp [hne]
  · intro r
    unfold clear_expired
    simp [List.mem_filter]

/-- C7 witness: a store holding a record for alice dated 2026-10-11, looked up
on 2026-10-12, answers "not wished" and erases the row. -/
theorem c7_witness :
    WishStore.lookup ⟨[("alice", ((2026 : Int), (10 : Int), (11 : Int)))]⟩ "alice" =
      some (2026, 10, 11) ∧
    ((2026 : Int), (10 : Int), (11 : Int)) ≠ ((2026 : Int), (10 : Int), (12 : Int)) ∧
    has_been_wished ⟨[("alice", (2026, 10, 11))]⟩ (2026, 10, 12) "alice" =
      (false, WishStore.erase ⟨[("alice", (2026, 10, 11))]⟩ "alice") :=
  ⟨by decide, by decide,
    (c7_stale_wish_expiry ⟨[("alice", (2026, 10, 11))]⟩ (2026, 10, 12) "alice"
      (2026, 10, 11) (by decide) (by decide)).1⟩

/-! ## Helper lemmas about the scan driver -/

/-- processComments only appends to its accumulator. -/
theorem processComments_mono (procItem : String → Except PyErr Bool) :
    ∀ (cs : List RComment) (acc res : List String),
      processComments procItem cs acc = .ok res → ∀ a ∈ acc, a ∈ res := by
  intro cs
  induction cs with
  | nil =>
    intro acc res h a ha
    simp only [processComments, Except.ok.injEq] at h
    subst h
    exact ha
  | cons c rest ih =>
    intro acc res h a ha
    simp only [processComments] at h
    by_cases hat : c.author.isSome
    · rw [if_pos hat] at h
      cases hpi : procItem c.id with
      | error e => rw [hpi] at h; simp at h
      | ok b => rw [hpi] at h; exact ih _ _ h a (List.mem_append_left _ ha)
    · rw [if_neg hat] at h
      exact ih _ _ h a ha

/-- When the post loop finishes without an escaping error, the accumulator is
preserved into the result and every authored post strictly before the cursor
boundary is among the processed item ids. -/
theorem go_processed (procItem : String → Except PyErr Bool) (lc : Option String) :
    ∀ (l : List Post) (newLast : Option String) (acc : List String)
      (res : List String × Option String),
      process_subreddit_go procItem lc l newLast acc = .ok res →
      (∀ a ∈ acc, a ∈ res.1) ∧
      (∀ p ∈ l.takeWhile (fun q => !(cursorMatch lc q.id)),
        p.author.isSome = true → p.id ∈ res.1) := by
  intro l
  induction l with
  | nil =>
    intro newLast acc res h
    simp only [process_subreddit_go, Except.ok.injEq] at h
    subst h
    exact ⟨fun a ha => ha, by simp⟩
  | cons p rest ih =>
    intro newLast acc res h
    simp only [process_subreddit_go] at h
    by_cases hcm : cursorMatch lc p.id
    · rw [if_pos hcm] at h
      simp only [Except.ok.injEq] at h
      subst h
      refine ⟨fun a ha => ha, ?_⟩
      intro q hq
      rw [List.takeWhile_cons] at hq
      simp [hcm] at hq
    · rw [if_neg hcm] at h
      by_cases hat : p.author.isSome
      · rw [if_pos hat] at h
        cases hpi : procItem p.id with
        | error e => rw [hpi] at h; simp at h
        | ok b =>
          rw [hpi] at h
          cases hpc : processComments procItem (p.comments.take 50) (acc ++ [p.id]) with
          | error e => rw [hpc] at h; simp at h
          | ok acc2 =>
            rw [hpc] at h
            obtain ⟨hmono, hrest⟩ := ih _ _ _ h
            have hacc1 : ∀ a ∈ acc ++ [p.id], a ∈ acc2 :=
              processComments_mono procItem _ _ _ hpc
            refine ⟨fun a ha => hmono a (hacc1 a (List.mem_append_left _ ha)), ?_⟩
            intro q hq hqa
            rw [List.takeWhile_cons] at hq
            simp only [hcm, Bool.not_false, if_true, List.mem_cons] at hq
            rcases hq with rfl | hq
            · exact hmono _ (hacc1 _ (by simp))
            · exact hrest q hq hqa
      · rw [if_neg hat] at h
        cases hpc : processComments procItem (p.comments.take 50) acc with
        | error e => rw [hpc] at h; simp at h
        | ok acc2 =>
          rw [hpc] at h
          obtain ⟨hmono, hrest⟩ := ih _ _ _ h
          have hacc1 : ∀ a ∈ acc, a ∈ acc2 := processComments_mono procItem _ _ _ hpc
          refine ⟨fun a ha => hmono a (hacc1 a ha), ?_⟩
          intro q hq hqa
          rw [List.takeWhile_cons] at hq
          simp only [hcm, Bool.not_false, if_true, List.mem_cons] at hq
          rcases hq with rfl | hq
          · exact absurd hqa (by simpa using hat)
          · exact hrest q hq hqa

/-- A scan whose feed starts with the stored cursor post stops at once:
nothing is processed and the returned cursor is that first post's id. -/
theorem process_subreddit_cursor_head (procItem : String → Except PyErr Bool)
    (p : Post) (rest : List Post) (c : String) (hid : p.id = c) :
    process_subreddit procItem (p :: rest) (some c) = .ok ([], some p.id) := by
  have h25 : (p :: rest).take 25 = p :: rest.take 24 := rfl
  unfold process_subreddit
  rw [h25]
  unfold process_subreddit_go
  have hcm : cursorMatch (some c) p.id = true := by simp [cursorMatch, hid]
  rw [if_pos hcm]
  rfl

/-- Iterated scans whose feeds all start with the stored cursor post leave the
cursor unchanged. -/
theorem run_scans_fixed (c : String) :
    ∀ feeds : List (List Post),
      (∀ f ∈ feeds, ∃ p rest, f = p :: rest ∧ p.id = c) →
      ∀ procItem, run_scans procItem feeds (some c) = .ok (some c) := by
  intro feeds
  induction feeds with
  | nil => intro _ procItem; rfl
  | cons f fs ih =>
    intro h procItem
    obtain ⟨p, rest, hf, hid⟩ := h f (List.mem_cons_self f fs)
    subst hf
    have hstep := process_subreddit_cursor_head procItem p rest c hid
    simp only [run_scans, run_scan, hstep, hid]
    exact ih (fun f hf => h f (List.mem_cons_of_mem _ hf)) procItem

/-! ## Claim theorems: scan driver -/

/-- C3 (amended): after any number of consecutive scans in each of which the
feed is non-empty and its first (newest) post is the stored cursor post — the
no-new-posts case with a non-empty feed — the persisted lastPostId is
unchanged after each scan; and whenever a scan completes and hands the driver
a cursor to persist, every authored post strictly newer than the previous
boundary is among the processed item ids. (The original claim also covered a
scan whose feed returns zero posts; there the code overwrites the cursor with
the initial null new_last_post_checked — see the counterexample.) -/
theorem c3_cursor_monotonicity (c : String) (feeds : List (List Post))
    (h : ∀ f ∈ feeds, ∃ p rest, f = p :: rest ∧ p.id = c) :
    (∀ procItem, run_scans procItem feeds (some c) = .ok (some c)) ∧
    (∀ (procItem : String → Except PyErr Bool) (posts : List Post)
      (lc : Option String) (res : List String × Option String),
      process_subreddit procItem posts lc = .ok res →
      ∀ p ∈ (posts.take 25).takeWhile (fun q => !(cursorMatch lc q.id)),
        p.author.isSome = true → p.id ∈ res.1) :=
  ⟨run_scans_fixed c feeds h, fun procItem posts lc res hres =>
    (go_processed procItem lc (posts.take 25) none [] res hres).2⟩

/-- Feeds of the C3 witness: two consecutive scans, each returning the stored
cursor post P3 first. -/
def c3feeds : List (List Post) :=
  [[mkPost "P3" "alice"], [mkPost "P3" "bob", mkPost "P2" "carol"]]

/-- C3 witness: over the two concrete feeds of c3feeds the cursor P3 survives
both scans unchanged. -/
theorem c3_witness :
    run_scans (fun _ => Except.ok false) c3feeds (some "P3") = .ok (some "P3") :=
  (c3_cursor_monotonicity "P3" c3feeds (by
    intro f hf
    simp only [c3feeds, List.mem_cons, List.not_mem_nil, or_false] at hf
    rcases hf with rfl | rfl
    · exact ⟨mkPost "P3" "alice", [], rfl, rfl⟩
    · exact ⟨mkPost "P3" "bob", [mkPost "P2" "carol"], rfl, rfl⟩)).1
    (fun _ => Except.ok false)

/-- C3 counterexample: with stored cursor P3 and a feed of zero posts the scan
returns the initial null cursor and the driver persists it — lastPostId is
overwritten with null, not left unchanged. -/
theorem c3_counterexample :
    run_scan (fun _ => Except.ok false) [] (some "P3") = .ok none ∧
    (none : Option String) ≠ some "P3" := by
  exact ⟨rfl, by simp⟩

/-- C5: with stored cursor P3 and the feed [P5, P4, P3, P2] newest-first,
exactly P5 and P4 are run through the pipeline and the scan returns P5's id
as the new cursor. -/
theorem c5_scan_boundary :
    process_subreddit (fun _ => Except.ok false)
      [mkPost "P5" "user5", mkPost "P4" "user4", mkPost "P3" "user3", mkPost "P2" "user2"]
      (some "P3") = .ok (["P5", "P4"], some "P5") := rfl

/-- C6: evaluating the code at the failing input. A comment item by an
eligible cake-day user whose context collection faulted immediately leaves an
empty collected context; the sentiment summary then raises ZeroDivisionError
(`sum(...) / len(...)` with len 0), process_item propagates it instead of
completing, and process_subreddit propagates it further, aborting the scan
before the next item (the conjunction's last part: the whole subreddit scan
ends in the error although a second post Q2 was still pending). -/
theorem c6_empty_context_abort :
    sentiment_summary (fun _ => 0) [] = .error PyErr.zeroDivision ∧
    process_item true (fun _ => 0) [] (fun _ _ => GenResult.err none) ["modelA"] 0
      (fun _ => GenResult.err none) (fun _ => ReplyOutcome.posted) =
      .error PyErr.zeroDivision ∧
    process_subreddit c6procItem
      [⟨"Q1", some "cakeuser", []⟩, ⟨"Q2", some "other", []⟩] none =
      .error PyErr.zeroDivision :=
  ⟨rfl, rfl, rfl⟩

/-! ## Helper lemmas about the Gemini failover loop -/

/-- The global model index never decreases across the failover loop. -/
theorem gemLoop_idx_le (gen : Nat → Nat → GenResult) (models : List String)
    (maxRetries : Nat) :
    ∀ fuel idx attempt, idx ≤ (gemLoop gen models maxRetries fuel idx attempt).2 := by
  intro fuel
  induction fuel with
  | zero => intro idx attempt; exact Nat.le_refl idx
  | succ n ih =>
    intro idx attempt
    by_cases h1 : attempt < maxRetries
    · by_cases h2 : models.length ≤ idx
      · have hstep : gemLoop gen models maxRetries (n + 1) idx attempt = (none, idx) := by
          simp [gemLoop, h1, h2]
        rw [hstep]
      · cases hg : gen idx attempt with
        | ok t =>
          have hstep : gemLoop gen models maxRetries (n + 1) idx attempt =
              (models[idx]?, idx) := by
            simp [gemLoop, h1, h2, hg]
          rw [hstep]
        | err code =>
          by_cases h3 : code = some 401
          · have hstep : gemLoop gen models maxRetries (n + 1) idx attempt = (none, idx) := by
              simp [gemLoop, h1, h2, hg, h3]
            rw [hstep]
          · by_cases h4 : code = some 429 ∨ code = some 503
            · have hstep : gemLoop gen models maxRetries (n + 1) idx attempt =
                  gemLoop gen models maxRetries n (idx + 1) attempt := by
                simp [gemLoop, h1, h2, hg, h3, h4]
              rw [hstep]
              exact Nat.le_trans (Nat.le_succ idx) (ih (idx + 1) attempt)
            · by_cases h5 : attempt < maxRetries - 1
              · have hstep : gemLoop gen models maxRetries (n + 1) idx attempt =
                    gemLoop gen models maxRetries n idx (attempt + 1) := by
                  simp [gemLoop, h1, h2, hg, h3, h4, h5]
                rw [hstep]
                exact ih idx (attempt + 1)
              · by_cases h6 : idx + 1 < models.length
                · have hstep : gemLoop gen models maxRetries (n + 1) idx attempt =
                      gemLoop gen models maxRetries n (idx + 1) 0 := by
                    simp [gemLoop, h1, h2, hg, h3, h4, h5, h6]
                  rw [hstep]
                  exact Nat.le_trans (Nat.le_succ idx) (ih (idx + 1) 0)
                · have hstep : gemLoop gen models maxRetries (n + 1) idx attempt =
                      (none, idx + 1) := by
                    simp [gemLoop, h1, h2, hg, h3, h4, h5, h6]
                  rw [hstep]
                  exact Nat.le_succ idx
    · have hstep : gemLoop gen models maxRetries (n + 1) idx attempt = (none, idx) := by
        simp [gemLoop, h1]
      rw [hstep]

/-- When the failover loop returns a model, it is the model at the returned
global index: a success is answered by the currently selected model. -/
theorem gemLoop_selected (gen : Nat → Nat → GenResult) (models : List String)
    (maxRetries : Nat) :
    ∀ fuel idx attempt m, (gemLoop gen models maxRetries fuel idx attempt).1 = some m →
      models[(gemLoop gen models maxRetries fuel idx attempt).2]? = some m := by
  intro fuel
  induction fuel with
  | zero =>
    intro idx attempt m hm
    simp [gemLoop] at hm
  | succ n ih =>
    intro idx attempt m hm
    by_cases h1 : attempt < maxRetries
    · by_cases h2 : models.length ≤ idx
      · rw [show gemLoop gen models maxRetries (n + 1) idx attempt = (none, idx) from by
          simp [gemLoop, h1, h2]] at hm
        simp at hm
      · cases hg : gen idx attempt with
        | ok t =>
          rw [show gemLoop gen models maxRetries (n + 1) idx attempt =
              (models[idx]?, idx) from by simp [gemLoop, h1, h2, hg]] at hm ⊢
          exact hm
        | err code =>
          by_cases h3 : code = some 401
          · rw [show gemLoop gen models maxRetries (n + 1) idx attempt = (none, idx) from by
              simp [gemLoop, h1, h2, hg, h3]] at hm
            simp at hm
          · by_cases h4 : code = some 429 ∨ code = some 503
            · rw [show gemLoop gen models maxRetries (n + 1) idx attempt =
                  gemLoop gen models maxRetries n (idx + 1) attempt from by
                simp [gemLoop, h1, h2, hg, h3, h4]] at hm ⊢
              exact ih _ _ _ hm
            · by_cases h5 : attempt < maxRetries - 1
              · rw [show gemLoop gen models maxRetries (n + 1) idx attempt =
                    gemLoop gen models maxRetries n idx (attempt + 1) from by
                  simp [gemLoop, h1, h2, hg, h3, h4, h5]] at hm ⊢
                exact ih _ _ _ hm
              · by_cases h6 : idx + 1 < models.length
                · rw [show gemLoop gen models maxRetries (n + 1) idx attempt =
                      gemLoop gen models maxRetries n (idx + 1) 0 from by
                    simp [gemLoop, h1, h2, hg, h3, h4, h5, h6]] at hm ⊢
                  exact ih _ _ _ hm
                · rw [show gemLoop gen models maxRetries (n + 1) idx attempt =
                      (none, idx + 1) from by
                    simp [gemLoop, h1, h2, hg, h3, h4, h5, h6]] at hm
                  simp at hm
    · rw [show gemLoop gen models maxRetries (n + 1) idx attempt = (none, idx) from by
        simp [gemLoop, h1]] at hm
      simp at hm

/-- If every generation call raises, the failover loop never selects a model. -/
theorem gemLoop_none_of_err (gen : Nat → Nat → GenResult) (models : List String)
    (maxRetries : Nat) (h : ∀ i a, ∃ c, gen i a = GenResult.err c) :
    ∀ fuel idx attempt, (gemLoop gen models maxRetries fuel idx attempt).1 = none := by
  intro fuel
  induction fuel with
  | zero => intro idx attempt; rfl
  | succ n ih =>
    intro idx attempt
    by_cases h1 : attempt < maxRetries
    · by_cases h2 : models.length ≤ idx
      · simp [gemLoop, h1, h2]
      · obtain ⟨code, hg⟩ := h idx attempt
        by_cases h3 : code = some 401
        · simp [gemLoop, h1, h2, hg, h3]
        · by_cases h4 : code = some 429 ∨ code = some 503
          · rw [show gemLoop gen models maxRetries (n + 1) idx attempt =
                gemLoop gen models maxRetries n (idx + 1) attempt from by
              simp [gemLoop, h1, h2, hg, h3, h4]]
            exact ih (idx + 1) attempt
          · by_cases h5 : attempt < maxRetries - 1
            · rw [show gemLoop gen models maxRetries (n + 1) idx attempt =
                  gemLoop gen models maxRetries n idx (attempt + 1) from by
                simp [gemLoop, h1, h2, hg, h3, h4, h5]]
              exact ih idx (attempt + 1)
            · by_cases h6 : idx + 1 < models.length
              · rw [show gemLoop gen models maxRetries (n + 1) idx attempt =
                    gemLoop gen models maxRetries n (idx + 1) 0 from by
                  simp [gemLoop, h1, h2, hg, h3, h4, h5, h6]]
                exact ih (idx + 1) 0
              · simp [gemLoop, h1, h2, hg, h3, h4, h5, h6]
    · simp [gemLoop, h1]

/-! ## Helper lemmas about the posting retry loop -/

/-- Every retry attempt passes the same text to reply: the accumulated list of
posted texts is the accumulator followed by copies of that text. -/
theorem post_comment_go_replicate (reply : Nat → ReplyOutcome) (text : String) :
    ∀ (remaining attempt : Nat) (acc : List String),
      ∃ k, (post_comment_go reply text remaining attempt acc).2 =
        acc ++ List.replicate k text := by
  intro remaining
  induction remaining with
  | zero => intro attempt acc; exact ⟨0, by simp [post_comment_go]⟩
  | succ n ih =>
    intro attempt acc
    simp only [post_comment_go]
    cases hr : reply attempt with
    | posted => exact ⟨1, by simp⟩
    | forbiddenRatelimit =>
      by_cases hn : 1 ≤ n
      · rw [if_pos hn]
        obtain ⟨k, hk⟩ := ih (attempt + 1) (acc ++ [text])
        exact ⟨k + 1, by rw [hk]; simp [List.replicate_succ]⟩
      · rw [if_neg hn]
        exact ⟨1, by simp⟩
    | forbiddenOther => exact ⟨1, by simp⟩
    | serverError =>
      by_cases hn : 1 ≤ n
      · rw [if_pos hn]
        obtain ⟨k, hk⟩ := ih (attempt + 1) (acc ++ [text])
        exact ⟨k + 1, by rw [hk]; simp [List.replicate_succ]⟩
      · rw [if_neg hn]
        exact ⟨1, by simp⟩
    | requestError =>
      by_cases hn : 1 ≤ n
      · rw [if_pos hn]
        obtain ⟨k, hk⟩ := ih (attempt + 1) (acc ++ [text])
        exact ⟨k + 1, by rw [hk]; simp [List.replicate_succ]⟩
      · rw [if_neg hn]
        exact ⟨1, by simp⟩
    | otherError => exact ⟨1, by simp⟩

/-- With at least one permitted attempt, reply is invoked at least once. -/
theorem post_comment_go_succ_replicate (reply : Nat → ReplyOutcome) (text : String)
    (r attempt : Nat) (acc : List String) :
    ∃ k, (post_comment_go reply text (r + 1) attempt acc).2 =
      acc ++ List.replicate (k + 1) text := by
  simp only [post_comment_go]
  cases hr : reply attempt with
  | posted => exact ⟨0, by simp⟩
  | forbiddenRatelimit =>
    by_cases hn : 1 ≤ r
    · rw [if_pos hn]
      obtain ⟨k, hk⟩ := post_comment_go_replicate reply text r (attempt + 1) (acc ++ [text])
      exact ⟨k, by rw [hk]; simp [List.replicate_succ]⟩
    · rw [if_neg hn]
      exact ⟨0, by simp⟩
  | forbiddenOther => exact ⟨0, by simp⟩
  | serverError =>
    by_cases hn : 1 ≤ r
    · rw [if_pos hn]
      obtain ⟨k, hk⟩ := post_comment_go_replicate reply text r (attempt + 1) (acc ++ [text])
      exact ⟨k, by rw [hk]; simp [List.replicate_succ]⟩
    · rw [if_neg hn]
      exact ⟨0, by simp⟩
  | requestError =>
    by_cases hn : 1 ≤ r
    · rw [if_pos hn]
      obtain ⟨k, hk⟩ := post_comment_go_replicate reply text r (attempt + 1) (acc ++ [text])
      exact ⟨k, by rw [hk]; simp [List.replicate_succ]⟩
    · rw [if_neg hn]
      exact ⟨0, by simp⟩
  | otherError => exact ⟨0, by simp⟩

/-- Every text the posting loop hands to reply is the given text itself. -/
theorem post_comment_all_suffixed (reply : Nat → ReplyOutcome) (text : String)
    (maxRetries : Nat) :
    ((post_comment_go reply text maxRetries 0 []).2.all (fun t => t == text)) = true := by
  obtain ⟨k, hk⟩ := post_comment_go_replicate reply text maxRetries 0 []
  rw [hk]
  simp only [List.nil_append, List.all_eq_true]
  intro x hx
  rw [List.eq_of_mem_replicate hx]
  exact beq_self_eq_true text

/-! ## Claim theorems: generation failover, fallback and posting -/

/-- C8 (amended): the global model index never decreases across the failover
loop (it is reset only by a process restart), a success returns the currently
selected model, and on a 429/503 failure the policy advances to the next model
while KEEPING the current attempt counter — the source's `continue` skips the
`attempt += 1` but performs no reset; the counter is reset to 0 only when a
model is abandoned after exhausting max_retries on other errors. -/
theorem c8_model_failover (gen : Nat → Nat → GenResult) (models : List String)
    (maxRetries fuel idx attempt : Nat) :
    idx ≤ (gemLoop gen models maxRetries fuel idx attempt).2 ∧
    (∀ m, (gemLoop gen models maxRetries fuel idx attempt).1 = some m →
      models[(gemLoop gen models maxRetries fuel idx attempt).2]? = some m) ∧
    (∀ code, gen idx attempt = GenResult.err code →
      (code = some 429 ∨ code = some 503) →
      attempt < maxRetries → idx < models.length →
      gemLoop gen models maxRetries (fuel + 1) idx attempt =
        gemLoop gen models maxRetries fuel (idx + 1) attempt) := by
  refine ⟨gemLoop_idx_le gen models maxRetries fuel idx attempt,
    fun m hm => gemLoop_selected gen models maxRetries fuel idx attempt m hm, ?_⟩
  intro code hg hcode hlt hlen
  have hlen2 : ¬ models.length ≤ idx := Nat.not_le.mpr hlen
  have h401 : ¬ code = some 401 := by rcases hcode with rfl | rfl <;> simp
  simp [gemLoop, if_pos hlt, if_neg hlen2, hg, h401, hcode]

/-- C8 counterexample: the oracle c8gen over two models. The source keeps the
attempt counter across the 429 switch, so model 1 is first probed at attempt 1,
never answers, and the loop exhausts both models returning none with final
index 2; under the claim's reset-on-switch reading model 1 would be probed at
attempt 0 and its answer returned. The two policies differ at this input, so
"resets its attempt counter for the new model" is false of the code. -/
theorem c8_counterexample :
    get_gemini_client c8gen ["modelA", "modelB"] 3 0 = (none, 2) ∧
    get_gemini_client_reset c8gen ["modelA", "modelB"] 3 0 = (some "modelB", 1) ∧
    get_gemini_client c8gen ["modelA", "modelB"] 3 0 ≠
      get_gemini_client_reset c8gen ["modelA", "modelB"] 3 0 :=
  ⟨by decide, by decide, by decide⟩

/-- C4 (amended): on a cake-day item whose collected conversation context is
non-empty, if every call to the generation client raises then process_item
still runs to completion (no error escapes), reply is invoked at least once,
and every text handed to reply is exactly the fixed fallback message followed
by the bot signature. -/
theorem c4_fallback_guarantee (polarity : String → Int) (collected : List SentEntry)
    (gen : Nat → Nat → GenResult) (models : List String) (startIdx : Nat)
    (genCall : String → GenResult) (reply : Nat → ReplyOutcome)
    (hgen : ∀ i a, ∃ c, gen i a = GenResult.err c)
    (hcollected : collected ≠ []) :
    ∃ texts finalIdx,
      process_item true polarity collected gen models startIdx genCall reply =
        .ok (true, texts, finalIdx) ∧
      texts ≠ [] ∧
      texts.all (fun t => t == fallbackMessage ++ botSignature) = true := by
  obtain ⟨e0, es, rfl⟩ := List.exists_cons_of_ne_nil hcollected
  have hnone : (get_gemini_client gen models 3 startIdx).1 = none := by
    unfold get_gemini_client
    exact gemLoop_none_of_err gen models 3 hgen _ _ _
  have hpi : process_item true polarity (e0 :: es) gen models startIdx genCall reply =
      .ok (true, (post_cake_day_comment reply fallbackMessage 3).2,
        (get_gemini_client gen models 3 startIdx).2) := by
    simp only [process_item, sentiment_summary, if_true]
    rw [hnone]
  refine ⟨(post_cake_day_comment reply fallbackMessage 3).2,
    (get_gemini_client gen models 3 startIdx).2, hpi, ?_, ?_⟩
  · obtain ⟨k, hk⟩ :=
      post_comment_go_succ_replicate reply (fallbackMessage ++ botSignature) 2 0 []
    unfold post_cake_day_comment
    rw [hk]
    simp
  · unfold post_cake_day_comment
    exact post_comment_all_suffixed reply (fallbackMessage ++ botSignature) 3

/-- C4 witness: everything concrete — a one-entry context, one model, every
generation call raising HTTP 500, posting succeeding at once. -/
theorem c4_witness :
    (∀ i a : Nat, (fun (_ _ : Nat) => GenResult.err (some 500)) i a =
      GenResult.err (some 500)) ∧
    ([(⟨"some context"⟩ : SentEntry)] ≠ []) ∧
    ∃ texts finalIdx,
      process_item true (fun _ => 0) [⟨"some context"⟩]
          (fun _ _ => GenResult.err (some 500)) ["modelA"] 0
          (fun _ => GenResult.err (some 500)) (fun _ => ReplyOutcome.posted) =
        .ok (true, texts, finalIdx) ∧
      texts ≠ [] ∧
      texts.all (fun t => t == fallbackMessage ++ botSignature) = true :=
  ⟨fun _ _ => rfl, by simp,
    c4_fallback_guarantee (fun _ => 0) [⟨"some context"⟩]
      (fun _ _ => GenResult.err (some 500)) ["modelA"] 0
      (fun _ => GenResult.err (some 500)) (fun _ => ReplyOutcome.posted)
      (fun _ _ => ⟨some 500, rfl⟩) (by simp)⟩

/-- C4 counterexample: a cake-day item whose collected context is empty (the
collector faulted before gathering anything). With the generation client
always raising a fatal 401, process_item does not complete and never reaches
reply: the unguarded sentiment summary raises ZeroDivisionError out of the
pipeline first, so the claim as stated — every cake-day item completes with a
fallback reply — fails at this input. -/
theorem c4_counterexample :
    process_item true (fun _ => 0) [] (fun _ _ => GenResult.err (some 401)) ["modelA"] 0
      (fun _ => GenResult.err (some 401)) (fun _ => ReplyOutcome.posted) =
      .error PyErr.zeroDivision := rfl

/-- C10: post_cake_day_comment passes to reply exactly the given message with
the fixed bot signature appended — every attempted text equals
message ++ signature — and the suffixed text is never the bare message. -/
theorem c10_signature_suffix (reply : Nat → ReplyOutcome) (m : String)
    (maxRetries : Nat) :
    ((post_cake_day_comment reply m maxRetries).2.all
      (fun t => t == m ++ botSignature)) = true ∧
    m ++ botSignature ≠ m := by
  constructor
  · unfold post_cake_day_comment
    exact post_comment_all_suffixed reply (m ++ botSignature) maxRetries
  · intro hEq
    have hlen := congrArg String.length hEq
    rw [String.length_append] at hlen
    have hsig : 0 < botSignature.length := by decide
    omega

/-! ## Helper lemma about the reputation recompute fold -/

/-- The score/count fold of the recompute loop equals the sum and length of
the filtered comment list. -/
theorem foldl_filter_sum (p : BotComment → Bool) :
    ∀ (cs : List BotComment) (a b : Int),
      cs.foldl (fun (acc : Int × Int) cm =>
        if p cm then (acc.1 + cm.score, acc.2 + 1) else acc) (a, b) =
      (a + ((cs.filter p).map (fun c => c.score)).sum,
       b + ((cs.filter p).length : Int)) := by
  intro cs
  induction cs with
  | nil => intro a b; simp
  | cons c rest ih =>
    intro a b
    by_cases hp : p c
    · simp only [List.foldl_cons, hp, if_true, ih, List.filter_cons, List.map_cons,
        List.sum_cons, List.length_cons]
      rw [Prod.mk.injEq]
      push_cast
      constructor <;> ring
    · simp only [List.foldl_cons, hp, if_false, ih, List.filter_cons]
      simp [hp]

/-! ## Claim theorems: reputation cache -/

/-- C9: a reputation lookup within the 900-second TTL of the cached value
returns the cached (totalScore, commentCount) without invoking the recompute
path (the flag is false and the cache is untouched); when the cached row is
absent or older than the TTL, the score is recomputed as the sum and count of
the bot's recent comments filtered by subreddit name (case-insensitively) and
the 30-day cutoff, and the fresh result is stored. -/
theorem c9_reputation_cache (cache : RepCache) (now : Int) (sub : String)
    (cs : List BotComment) (e : RepEntry)
    (hl : cache.lookup sub = some e) (hfresh : now - e.lastComputed ≤ 900) :
    get_bot_comment_score cache now sub cs 30 900 =
      ((e.totalScore, e.commentCount), cache, false) ∧
    (∀ (cache2 : RepCache) (now2 : Int) (sub2 : String) (cs2 : List BotComment),
      (∀ e2, cache2.lookup sub2 = some e2 → 900 < now2 - e2.lastComputed) →
      get_bot_comment_score cache2 now2 sub2 cs2 30 900 =
        ((((cs2.filter (repRelevant sub2 (now2 - 30 * 86400))).map
            (fun c => c.score)).sum,
          (((cs2.filter (repRelevant sub2 (now2 - 30 * 86400))).length : Int))),
         update_bot_performance cache2 now2 sub2
           (((cs2.filter (repRelevant sub2 (now2 - 30 * 86400))).map
             (fun c => c.score)).sum)
           ((cs2.filter (repRelevant sub2 (now2 - 30 * 86400))).length),
         true)) := by
  constructor
  · unfold get_bot_comment_score get_bot_performance
    rw [hl]
    simp [hfresh]
  · intro cache2 now2 sub2 cs2 hstale
    have hmiss : get_bot_performance cache2 now2 sub2 900 = none := by
      unfold get_bot_performance
      cases hlk : cache2.lookup sub2 with
      | none => rfl
      | some e2 =>
        have := hstale e2 hlk
        simp
        omega
    unfold get_bot_comment_score
    rw [hmiss]
    dsimp only
    rw [foldl_filter_sum (repRelevant sub2 (now2 - 30 * 86400)) cs2 0 0]
    simp

/-- C9 witness: a cache row for r/funny computed at instant 1000, looked up at
instant 1500 (within the TTL), is returned as-is with the recompute flag off;
and with the row aged past the TTL (lookup at instant 2000) a concrete
comment list is recomputed and stored. -/
theorem c9_witness :
    RepCache.lookup ⟨[("funny", ⟨5, 2, 1000⟩)]⟩ "funny" = some ⟨5, 2, 1000⟩ ∧
    (1500 : Int) - 1000 ≤ 900 ∧
    get_bot_comment_score ⟨[("funny", ⟨5, 2, 1000⟩)]⟩ 1500 "funny" [] 30 900 =
      ((5, 2), ⟨[("funny", ⟨5, 2, 1000⟩)]⟩, false) :=
  ⟨by decide, by decide,
    (c9_reputation_cache ⟨[("funny", ⟨5, 2, 1000⟩)]⟩ 1500 "funny" [] ⟨5, 2, 1000⟩
      (by decide) (by decide)).1⟩

end CakeDayBot
